import Mathlib

/-!
Verification of the Jossoor Real-Estate CRM API layer.

Shallow embedding of the repository's Python modules:
  * `crm/api/notifications.py`  — notification aggregation and unseen counts
  * `crm/api/mobile_api.py`     — OAuth host validation and task endpoints
  * `crm/fcrm/permissions/assign_to.py`        — assignment authorization
  * `crm/fcrm/permissions/leads_permissions.py` — lead visibility rules

Modelling conventions:
  * The document store (frappe ORM) is modelled as explicit lists of rows
    carried in a state record; `frappe.get_all` with filters becomes
    `List.filter`, `ORDER BY creation DESC` becomes an insertion sort by the
    corresponding key (MariaDB places NULLs last in descending order, which
    the `optKeyLe` comparator reproduces), and `LIMIT n` becomes `List.take`.
  * Python `None`-able string fields are modelled as `String` with `""`
    standing for `None`; every access in the source guards these fields with
    truthiness tests (`x or default`), under which `None` and `""` agree.
  * Timestamps and dates are modelled as `Int` (an ordered scalar is all the
    source uses of them: comparison and sorting).
  * `frappe.throw` becomes `Except.error`; user-facing messages are modelled
    as distinct error constructors.
-/

namespace Crm

/-! ### Executable string utilities

Python string primitives used by the source, re-expressed by structural
recursion on the character list so that concrete instances evaluate inside
the kernel.  The strings involved are ASCII, where `Char.toLower` and
`Char.isWhitespace` agree with Python `str.lower` / `str.strip`. -/

/-- Python `s.lower()`. -/
def strLower (s : String) : String := ⟨s.data.map Char.toLower⟩

/-- Python `s.strip()`. -/
def strTrim (s : String) : String :=
  ⟨(((s.data.dropWhile Char.isWhitespace).reverse).dropWhile Char.isWhitespace).reverse⟩

/-- Python `s[:n]` (a character slice). -/
def strTake (s : String) (n : Nat) : String := ⟨s.data.take n⟩

/-- Python `s.split(c)[0]`: the prefix before the first occurrence of `c`
(the whole string when `c` does not occur). -/
def strBefore (c : Char) (s : String) : String :=
  ⟨s.data.takeWhile (fun x => x != c)⟩

/-- Whether `pat` is a prefix of the second list. -/
def isPrefixList : List Char → List Char → Bool
  | [], _ => true
  | _ :: _, [] => false
  | a :: as, b :: bs => a == b && isPrefixList as bs

/-- Whether `pat` occurs as a contiguous sublist. -/
def listContains (pat : List Char) : List Char → Bool
  | [] => isPrefixList pat []
  | c :: rest => isPrefixList pat (c :: rest) || listContains pat rest

/-- Python substring test `pat in s`. -/
def containsSub (s pat : String) : Bool := listContains pat.data s.data

/-- Python `s.split(sep)` for a one-character separator (keeps empty
pieces). -/
def splitCharAux (sep : Char) : List Char → List Char → List (List Char)
  | [], acc => [acc.reverse]
  | c :: cs, acc =>
      if c == sep then acc.reverse :: splitCharAux sep cs []
      else splitCharAux sep cs (c :: acc)

/-- Python `s.split(",")`. -/
def splitComma (s : String) : List String :=
  (splitCharAux ',' s.data []).map (fun l => ⟨l⟩)

/-- Accumulator loop for whitespace splitting. -/
def wordsAux : List Char → List Char → List (List Char)
  | [], acc => if acc.isEmpty then [] else [acc.reverse]
  | c :: cs, acc =>
      if Char.isWhitespace c then
        if acc.isEmpty then wordsAux cs []
        else acc.reverse :: wordsAux cs []
      else wordsAux cs (c :: acc)

/-- Python `s.split()` with no argument: split on whitespace runs, dropping
empty pieces. -/
def splitWs (s : String) : List String :=
  (wordsAux s.data []).map (fun l => ⟨l⟩)

/-- Python `s.replace(",", " ")`. -/
def replaceCommaSpace (s : String) : String :=
  ⟨s.data.map (fun c => if c == ',' then ' ' else c)⟩

/-! ## Notification aggregator (`crm/api/notifications.py`) -/

/-- Results of the dynamic column probes `_has("seen")`, `_has("read")`,
`_has("from_user")` against the deployed `Notification Log` schema. -/
structure NSchema where
  hasSeen : Bool
  hasRead : Bool
  hasFromUser : Bool
  deriving DecidableEq

/-- The read-state column chosen by `_seen_column_name` (either `seen` or
`read`, or absent). -/
inductive SeenCol where
  | seen
  | read
  deriving DecidableEq

/-- A row of the `Notification Log` table.  String fields use `""` for
`None`; `seen` and `read` hold the integer column values (meaningful only
when the schema has that column). -/
structure NRow where
  name : String
  subject : String
  email_content : String
  creation : Option Int
  type : String
  document_type : String
  document_name : String
  for_user : String
  owner : String
  from_user : String
  seen : Nat
  read : Nat
  deriving DecidableEq

/-- A row of the legacy `CRM Notification` table (fixed schema). -/
structure CRMRow where
  name : String
  creation : Option Int
  from_user : String
  type : String
  to_user : String
  read : Bool
  message : String
  notification_text : String
  notification_type_doctype : String
  notification_type_doc : String
  reference_doctype : String
  reference_name : String
  deriving DecidableEq

/-- A `User` row (shared by several modules; `""` models `None`). -/
structure UserRow where
  name : String
  email : String
  full_name : String
  user_image : String
  enabled : Bool
  deriving DecidableEq

/-- Backing-store state for the notifications module.  `stripHtml` models the
external utility `frappe.utils.strip_html` (out of scope per the spec); `now`
models `frappe.utils.now_datetime()`. -/
structure NotifDB where
  schema : NSchema
  nlog : List NRow
  crmTableExists : Bool
  crm : List CRMRow
  users : List UserRow
  sessionUser : String
  now : Int
  stripHtml : String → String

/-- `_seen_column_name`: prefer `seen`, then `read`, else `None`. -/
def _seen_column_name (sch : NSchema) : Option SeenCol :=
  if sch.hasSeen then some SeenCol.seen
  else if sch.hasRead then some SeenCol.read
  else none

/-- `_bool_seen`: truthiness of the probed read-state column; `False` when no
such column exists. -/
def _bool_seen (r : NRow) : Option SeenCol → Bool
  | none => false
  | some SeenCol.seen => r.seen != 0
  | some SeenCol.read => r.read != 0

/-- `_looks_like_reminder`: declared type is reminder/alert, or the subject
mentions "remind" (both sides lowercased). -/
def _looks_like_reminder (r : NRow) : Bool :=
  let t := strLower r.type
  let subj := strLower r.subject
  (t == "reminder" || t == "alert") || containsSub subj "remind"

/-- `CRM_DTYPES.get(dt) if dt else None`. -/
def _map_ref_doctype (dt : String) : Option String :=
  if dt == "" then none
  else if dt == "CRM Lead" then some "lead"
  else if dt == "CRM Deal" then some "deal"
  else none

/-- `CRM_ROUTE.get(dt) if dt else None`. -/
def _map_route (dt : String) : Option String :=
  if dt == "" then none
  else if dt == "CRM Lead" then some "Lead"
  else if dt == "CRM Deal" then some "Deal"
  else none

/-- `frappe.get_value("User", u, "full_name")`; `""` models `None` (user
missing). -/
def fullNameOf (users : List UserRow) (u : String) : String :=
  match users.find? (fun x => x.name == u) with
  | some x => x.full_name
  | none => ""

/-- `_text_from_nlog`: subject, else email content, stripped of HTML, else
the literal `"Notification"`. -/
def _text_from_nlog (db : NotifDB) (r : NRow) : String :=
  let txt := strTrim r.subject
  let txt := if txt == "" then strTrim r.email_content else txt
  let s := db.stripHtml txt
  if s == "" then "Notification" else s

/-- The normalized notification shape produced for the portal; the
`from_user` sub-dict is flattened into the two `from_user_*` fields. -/
structure PortalDict where
  creation : Option Int
  from_user_name : String
  from_user_full_name : String
  type : String
  to_user : String
  read : Bool
  hash : String
  notification_text : String
  notification_type_doctype : String
  notification_type_doc : String
  reference_doctype : Option String
  reference_name : String
  route_name : Option String
  source : String
  name : String

/-- `_nlog_to_portal_dict`: normalize one `Notification Log` row. -/
def _nlog_to_portal_dict (db : NotifDB) (r : NRow) (seenCol : Option SeenCol) :
    PortalDict :=
  { creation := r.creation
    from_user_name := r.owner
    from_user_full_name := fullNameOf db.users r.owner
    type := if _looks_like_reminder r then "reminder"
            else (if r.type == "" then "system" else r.type)
    to_user := if r.for_user != "" then r.for_user else r.owner
    read := _bool_seen r seenCol
    hash := if _looks_like_reminder r then "#reminder" else ""
    notification_text := _text_from_nlog db r
    notification_type_doctype := r.document_type
    notification_type_doc := r.document_name
    reference_doctype := _map_ref_doctype r.document_type
    reference_name := r.document_name
    route_name := _map_route r.document_type
    source := "Notification Log"
    name := r.name }

/-- `get_hash` for legacy rows (sequential reassignments flattened). -/
def get_hash (n : CRMRow) : String :=
  let h := ""
  let h := if n.type == "Mention" && n.notification_type_doc != ""
           then "#" ++ n.notification_type_doc else h
  let h := if n.type == "WhatsApp" then "#whatsapp" else h
  if n.type == "Assignment" && n.notification_type_doctype == "CRM Task" then
    (if containsSub n.message "has been removed by" then "" else "#tasks")
  else h

/-- Normalization of one legacy `CRM Notification` row inside
`_list_crm_notifications` (anything other than `CRM Deal` maps to lead). -/
def crmToPortalDict (db : NotifDB) (n : CRMRow) : PortalDict :=
  { creation := n.creation
    from_user_name := n.from_user
    from_user_full_name := fullNameOf db.users n.from_user
    type := n.type
    to_user := n.to_user
    read := n.read
    hash := get_hash n
    notification_text := n.notification_text
    notification_type_doctype := n.notification_type_doctype
    notification_type_doc := n.notification_type_doc
    reference_doctype := some (if n.reference_doctype == "CRM Deal" then "deal" else "lead")
    reference_name := n.reference_name
    route_name := some (if n.reference_doctype == "CRM Deal" then "Deal" else "Lead")
    source := "CRM Notification"
    name := n.name }

/-- Comparator on nullable creation timestamps: `x ≤ y` with `NULL` as the
smallest value, so that descending order places `NULL`s last (MariaDB). -/
def optKeyLe (x y : Option Int) : Bool :=
  match x, y with
  | none, _ => true
  | some _, none => false
  | some a, some b => a ≤ b

/-- SQL `ORDER BY creation DESC` relation on log rows. -/
def sqlNlogRel : NRow → NRow → Prop :=
  fun a b => optKeyLe b.creation a.creation = true

instance : DecidableRel sqlNlogRel :=
  fun a b => inferInstanceAs (Decidable (_ = true))

/-- SQL `ORDER BY creation DESC` relation on legacy rows. -/
def sqlCrmRel : CRMRow → CRMRow → Prop :=
  fun a b => optKeyLe b.creation a.creation = true

instance : DecidableRel sqlCrmRel :=
  fun a b => inferInstanceAs (Decidable (_ = true))

/-- The `or_filters` of the per-user `Notification Log` queries: addressed to
the user, owned by the user, or (when the column exists) sent by the user. -/
def nlogMatches (db : NotifDB) (user : String) (r : NRow) : Bool :=
  r.for_user == user || r.owner == user
    || (db.schema.hasFromUser && r.from_user == user)

/-- The `frappe.get_all("Notification Log", or_filters, order_by creation
desc, limit_page_length cap)` query shared by the count and list paths. -/
def nlogFetch (db : NotifDB) (user : String) (cap : Nat) : List NRow :=
  ((db.nlog.filter (nlogMatches db user)).insertionSort sqlNlogRel).take cap

/-- `_get_unseen_count_for`: count unseen fetched log rows (500-row fetch
cap), plus a count of unread legacy rows when that table exists. -/
def _get_unseen_count_for (db : NotifDB) (user : String) : Nat :=
  let seenCol := _seen_column_name db.schema
  let rows := nlogFetch db user 500
  let t := (rows.filter (fun r => !(_bool_seen r seenCol))).length
  t + (if db.crmTableExists then
        (db.crm.filter (fun c => c.to_user == user && !c.read)).length
      else 0)

/-- `get_unseen_count` endpoint (session user). -/
def get_unseen_count (db : NotifDB) : Nat :=
  _get_unseen_count_for db db.sessionUser

/-- `get_unread_count` endpoint: backward-compatibility alias. -/
def get_unread_count (db : NotifDB) : Nat :=
  get_unseen_count db

/-- Python slice `l[:k]` for an `int` bound `k` (negative bounds count from
the end). -/
def pythonTake (k : Int) (l : List α) : List α :=
  if 0 ≤ k then l.take k.toNat
  else l.take (((l.length : Int) + k).toNat)

/-- `_list_crm_notifications`: legacy rows of the session user, creation
descending, truncated to `limit`, then normalized. -/
def _list_crm_notifications (db : NotifDB) (limit : Int) : List PortalDict :=
  let rows := (db.crm.filter (fun c => c.to_user == db.sessionUser)).insertionSort sqlCrmRel
  (pythonTake limit rows).map (crmToPortalDict db)

/-- Merged-sort key of `list_portal_notifications`: creation, or `now` for
rows lacking a timestamp. -/
def keyOrNow (now : Int) (x : PortalDict) : Int := x.creation.getD now

/-- The relation under which the merged feed is emitted: non-increasing by
`keyOrNow` (Python `sort(key=..., reverse=True)`). -/
def mergeRel (now : Int) : PortalDict → PortalDict → Prop :=
  fun a b => keyOrNow now b ≤ keyOrNow now a

instance (now : Int) : DecidableRel (mergeRel now) :=
  fun a b => Int.decLe _ _

instance (now : Int) : IsTotal PortalDict (mergeRel now) :=
  ⟨fun a b => le_total (keyOrNow now b) (keyOrNow now a)⟩

instance (now : Int) : IsTrans PortalDict (mergeRel now) :=
  ⟨fun _ _ _ hab hbc => le_trans hbc hab⟩

/-- `list_portal_notifications`: fetch up to `max(limit, 200)` rows from each
source, normalize, concatenate, sort descending by creation (missing
timestamps sort as `now`), truncate to `limit`. -/
def list_portal_notifications (db : NotifDB) (limit include_legacy : Int) :
    List PortalDict :=
  let seenCol := _seen_column_name db.schema
  let base := nlogFetch db db.sessionUser (max limit 200).toNat
  let out := base.map (fun r => _nlog_to_portal_dict db r seenCol)
  let out := if include_legacy != 0
             then out ++ _list_crm_notifications db (max limit 200)
             else out
  pythonTake limit (out.insertionSort (mergeRel db.now))

/-! ## OAuth host validation (`crm/api/mobile_api.py`) -/

/-- The request headers consulted by `_validate_host` (`None` = header
absent; `some ""` = present but empty, which Python treats as falsy). -/
structure OAuthRequest where
  xForwardedHost : Option String
  hostHeader : Option String
  deriving DecidableEq

/-- The `domains` entry of `site_config.json`: absent, a list, or a
comma/space separated string. -/
inductive DomainsVal where
  | dnone
  | dlist (l : List String)
  | dstr (s : String)
  deriving DecidableEq

/-- The parts of the site config read by `_validate_host`. -/
structure SiteConfig where
  domains : DomainsVal
  host_name : Option String
  deriving DecidableEq

/-- The `Mobile OAuth Settings` single document (`""` models empty/`None`
fields). -/
structure MobileSettings where
  client_id : String
  scope : String
  redirect_uri : String
  deriving DecidableEq

/-- State visible to `get_oauth_config`.  `config = none` models
`frappe.get_site_config()` raising.  `_ensure_mobile_oauth_settings`
touches the filesystem, the database and the OAuth provider (all external
collaborators per the spec); `ensureResult` records its outcome: the
settings document it returns, or the text of the exception it raises. -/
structure OAuthState where
  request : Option OAuthRequest
  site : Option String
  config : Option SiteConfig
  ensureResult : Except String MobileSettings

/-- The user-facing rejections of `get_oauth_config` (one constructor per
distinct `frappe.throw` message). -/
inductive VErr where
  | requestMissing
  | hostMissing
  | siteMissing
  | configDeny
  | hostNotAllowed
  | providerMissing
  | ensureFailed
  | incompleteSettings
  deriving DecidableEq

/-- Host extraction from the headers: X-Forwarded-Host first (taking the
first comma-separated entry, stripped), else Host; `none` when the result is
missing or empty (the `if not host` check). -/
def extractRawHost (req : OAuthRequest) : Option String :=
  let fromHostHeader : Option String :=
    match req.hostHeader with
    | some h => if h == "" then none else some h
    | none => none
  match req.xForwardedHost with
  | some x =>
    if x == "" then fromHostHeader
    else
      let h := if containsSub x "," then strTrim (strBefore ',' x) else x
      if h == "" then none else some h
  | none => fromHostHeader

/-- Host normalization: `host.lower().split(":")[0].strip()`. -/
def normalizeHost (raw : String) : String :=
  strTrim (strBefore ':' (strLower raw))

/-- The `allowed_domains` list built from the site config: the (truthy)
`domains` entry, lowercased and stripped, then `host_name` appended when
truthy and not already present. -/
def parseDomains (cfg : SiteConfig) : List String :=
  let ds : List String :=
    match cfg.domains with
    | DomainsVal.dnone => []
    | DomainsVal.dlist l =>
        if l == [] then [] else l.map (fun d => strTrim (strLower d))
    | DomainsVal.dstr s =>
        if s == "" then []
        else (splitWs (replaceCommaSpace s)).map (fun d => strTrim (strLower d))
  match cfg.host_name with
  | some hn =>
      if hn == "" then ds
      else
        let h := strTrim (strLower hn)
        if ds.contains h then ds else ds ++ [h]
  | none => ds

/-- `_validate_host`.  Note the no-domains fallback: with an empty
`allowed_domains` the site name itself is allowed when it equals the host.
A `frappe.throw` raised inside the `try` block is caught by the
`except Exception` handler, which re-checks the site name (necessarily
failing again) and emits the config-error denial, hence `configDeny` for
both paths. -/
def _validate_host (st : OAuthState) : Except VErr Unit :=
  match st.request with
  | none => Except.error VErr.requestMissing
  | some req =>
    match extractRawHost req with
    | none => Except.error VErr.hostMissing
    | some raw =>
      let host := normalizeHost raw
      match st.site with
      | none => Except.error VErr.siteMissing
      | some site =>
        if site == "" then Except.error VErr.siteMissing
        else
          let allowedE : Except VErr (List String) :=
            match st.config with
            | some cfg =>
              let ad := parseDomains cfg
              if ad != [] then Except.ok ad
              else if host == strTrim (strLower site) then Except.ok [strTrim (strLower site)]
              else Except.error VErr.configDeny
            | none =>
              if host == strTrim (strLower site) then Except.ok [strTrim (strLower site)]
              else Except.error VErr.configDeny
          match allowedE with
          | Except.error e => Except.error e
          | Except.ok allowed =>
            let hostAllowed :=
              allowed.contains host
                || ((host == "localhost" || host == "127.0.0.1")
                     && allowed.contains host)
            if hostAllowed then Except.ok ()
            else Except.error VErr.hostNotAllowed

/-- The configuration payload returned on success. -/
structure OAuthConfigOut where
  client_id : String
  scope : String
  redirect_uri : String
  deriving DecidableEq

/-- `get_oauth_config`: validate the host, ensure settings, refuse an empty
`client_id`, and apply the scope/redirect defaults. -/
def get_oauth_config (st : OAuthState) : Except VErr OAuthConfigOut :=
  match _validate_host st with
  | Except.error e => Except.error e
  | Except.ok _ =>
    match st.ensureResult with
    | Except.error e =>
        Except.error (if containsSub e "OAuth Provider" then VErr.providerMissing
                      else VErr.ensureFailed)
    | Except.ok settings =>
        if settings.client_id == "" then Except.error VErr.incompleteSettings
        else Except.ok
          { client_id := settings.client_id
            scope := if settings.scope == "" then "all openid" else settings.scope
            redirect_uri := if settings.redirect_uri == "" then "app.trust://oauth2redirect"
                            else settings.redirect_uri }

/-- The normalized host of the request, when one can be extracted. -/
def resolvedHost (st : OAuthState) : Option String :=
  match st.request with
  | none => none
  | some req => (extractRawHost req).map normalizeHost

/-- Restatement, in the spec vocabulary, of the set of hosts the code
accepts: the normalized host must be among the explicitly configured
domains, or — when no domains are configured or the site config cannot be
read — equal the lowercased site name. -/
def hostPermittedSpec (st : OAuthState) : Bool :=
  match resolvedHost st, st.site with
  | some h, some site =>
    if site == "" then false
    else
      match st.config with
      | some cfg =>
        let ds := parseDomains cfg
        if ds.contains h then true
        else ds == [] && h == strTrim (strLower site)
      | none => h == strTrim (strLower site)
  | _, _ => false

/-! ## Assignment authorization and lead visibility
(`crm/fcrm/permissions/assign_to.py`, `leads_permissions.py`)

The dynamic `_member_user_col` probe discovers which child-table column
links a `Member` row to a `User`; it is deployment metadata (external), so
the member row is modelled with the discovered column as its `user` field. -/

/-- A `Team` document. -/
structure Team where
  name : String
  team_leader : String
  deriving DecidableEq

/-- A `Member` child-table row (`user` is the discovered link column). -/
structure MemberRow where
  parent : String
  parenttype : String
  user : String
  deriving DecidableEq

/-- A `ToDo` assignment record. -/
structure Todo where
  reference_type : String
  reference_name : String
  allocated_to : String
  status : String
  deriving DecidableEq

/-- Backing-store state for the permission modules.  `roles` is the
user-to-role table behind `frappe.get_roles` / `frappe.permissions.has_role`;
`readPerm actor doctype name` models `frappe.has_permission(doctype, "read",
name)` for the session user `actor`. -/
structure PermDB where
  roles : List (String × String)
  teams : List Team
  members : List MemberRow
  todos : List Todo
  users : List UserRow
  readPerm : String → String → String → Bool

/-- `frappe.permissions.has_role(role, user)`. -/
def hasRole (db : PermDB) (role user : String) : Bool :=
  db.roles.contains (user, role)

/-- `frappe.get_roles(user)`. -/
def getRoles (db : PermDB) (user : String) : List String :=
  (db.roles.filter (fun p => p.1 == user)).map (fun p => p.2)

/-- `_is_privileged`: Administrator, or holder of System Manager. -/
def _is_privileged (db : PermDB) (user : String) : Bool :=
  user == "Administrator" || hasRole db "System Manager" user

/-- `_is_sales_manager`. -/
def _is_sales_manager (db : PermDB) (user : String) : Bool :=
  hasRole db "Sales Manager" user

/-- `_is_sales_user`. -/
def _is_sales_user (db : PermDB) (user : String) : Bool :=
  hasRole db "Sales User" user

/-- `_team_members_of`: the roster of the first Team led by `leader`
(member rows of that team, empty values dropped).  The Python result is a
`set`; a list with the same membership is used here. -/
def _team_members_of (db : PermDB) (leader : String) : List String :=
  match db.teams.find? (fun t => t.team_leader == leader) with
  | none => []
  | some t =>
      ((db.members.filter (fun m => m.parent == t.name && m.parenttype == "Team")).map
        (fun m => m.user)).filter (fun u => u != "")

/-- The rejections raised by `assign_lead` (`frappe.PermissionError` with the
listed message; `teamOnly` carries the out-of-roster users named in it). -/
inductive AssignError where
  | notPermittedRead
  | teamOnly (illegal : List String)
  | notAllowed
  deriving DecidableEq

/-- `assign_lead`: read-permission precondition, then the role policy; on
success one `add_assignment` call is made per surviving user, so the `ok`
payload is the list of assignment records created (in order). -/
def assign_lead (db : PermDB) (actor doctype docname : String)
    (users : List String) : Except AssignError (List String) :=
  let users := users.filter (fun u => u != "")
  if !(db.readPerm actor doctype docname) then
    Except.error AssignError.notPermittedRead
  else if _is_privileged db actor then Except.ok users
  else if _is_sales_manager db actor then
    let allowed := _team_members_of db actor
    let illegal := users.filter (fun u => !(allowed.contains u))
    if illegal != [] then Except.error (AssignError.teamOnly illegal)
    else Except.ok users
  else Except.error AssignError.notAllowed

/-- Projection of a user row onto the fields returned by
`get_assignable_users`. -/
structure PublicUser where
  name : String
  full_name : String
  user_image : String
  deriving DecidableEq

/-- The field projection of `get_assignable_users`. -/
def toPublic (u : UserRow) : PublicUser :=
  { name := u.name, full_name := u.full_name, user_image := u.user_image }

/-- `get_assignable_users`: privileged callers get all enabled users, Sales
Managers the enabled members of their roster (empty roster short-circuits to
an empty list), everyone else nothing. -/
def get_assignable_users (db : PermDB) (me : String) : List PublicUser :=
  if _is_privileged db me then
    (db.users.filter (fun u => u.enabled)).map toPublic
  else if _is_sales_manager db me then
    let allowed := _team_members_of db me
    if allowed.isEmpty then []
    else (db.users.filter (fun u => u.enabled && allowed.contains u.name)).map toPublic
  else []

/-- An open `ToDo` on a given document allocated to a given user
(the correlated `EXISTS` subquery / `frappe.db.exists` call). -/
def openTodoFor (db : PermDB) (doctype docname user : String) : Bool :=
  db.todos.any (fun td =>
    td.reference_type == doctype && td.reference_name == docname
      && td.allocated_to == user && td.status == "Open")

/-- The member-users of teams led by `user` — the SQL join of
`leads_permissions.py` (`m JOIN t ON m.parent = t.name WHERE
t.team_leader = user`; note: no `parenttype` filter in this SQL). -/
def leaderMembers (db : PermDB) (user : String) : List String :=
  (db.members.filter (fun m =>
    db.teams.any (fun t => m.parent == t.name && t.team_leader == user))).map
    (fun m => m.user)

/-- The row predicate of the `assigned_self OR assigned_team` SQL condition,
evaluated at a lead name. -/
def leadQueryCond (db : PermDB) (user leadName : String) : Bool :=
  openTodoFor db "CRM Lead" leadName user
    || db.members.any (fun m =>
        db.teams.any (fun t => m.parent == t.name && t.team_leader == user)
          && openTodoFor db "CRM Lead" leadName m.user)

/-- `get_permission_query_conditions` for `CRM Lead`: `"1=0"` for guests,
no condition (`None`) for System Managers, else the existence filter as a
predicate on the lead name. -/
def get_permission_query_conditions (db : PermDB) (user : String) :
    Option (String → Bool) :=
  if user == "" || user == "Guest" then some (fun _ => false)
  else if (getRoles db user).contains "System Manager" then none
  else some (leadQueryCond db user)

/-- A `CRM Lead` document as seen by `has_permission`.  `assignList` is the
parsed `_assign` JSON list (a parse failure yields `[]` in the source). -/
structure LeadDoc where
  doctype : String
  name : String
  assignList : List String
  deriving DecidableEq

/-- `has_permission` (document-level check; `ptype` is accepted and
ignored by the source). -/
def has_permission (db : PermDB) (doc : LeadDoc) (ptype user : String) : Bool :=
  if user == "" || user == "Guest" then false
  else if (getRoles db user).contains "System Manager" then true
  else if doc.assignList.contains user then true
  else if openTodoFor db doc.doctype doc.name user then true
  else
    let mems := leaderMembers db user
    if mems.any (fun m => m != "" && doc.assignList.contains m) then true
    else
      let inTuple := mems.filter (fun m => m != "")
      if !mems.isEmpty && !inTuple.isEmpty
          && db.todos.any (fun td =>
              td.reference_type == doc.doctype && td.reference_name == doc.name
                && td.status == "Open" && inTuple.contains td.allocated_to) then
        true
      else false

/-! ## Task endpoints (`crm/api/mobile_api.py`)

Dates are ordered scalars (`Int`); `""` models an absent/`None` string
field.  `_safe_fields` only prunes the projection to existing columns and
does not change any value used below, so it is not modelled separately. -/

/-- A `CRM Task` document. -/
structure TaskDoc where
  name : String
  title : String
  status : String
  priority : String
  start_date : Int
  due_date : Option Int
  task_type : String
  description : String
  assigned_to : String
  modified : Int
  deriving DecidableEq

/-- Backing-store state for the task endpoints.  `nextName` is the document
name the framework will give the next inserted task; `today` models
`frappe.utils.today()`. -/
structure TaskDB where
  tasks : List TaskDoc
  todos : List Todo
  users : List UserRow
  today : Int
  nextName : String

/-- One entry of the resolved assignee list. -/
structure AssignedUser where
  email : String
  name : String
  id : String
  profile_pic : Option String
  deriving DecidableEq

/-- Resolution of one user email to its `AssignedUser` entry (shared by
`_get_assigned_users` and the single-assignee fallback; a missing user is
skipped / yields no entry).  Frappe `User` has no `photo` field, so the
`hasattr(user, "photo")` branch is dead and `user_image` decides the
picture. -/
def resolveAssignee (users : List UserRow) (email : String) : Option AssignedUser :=
  match users.find? (fun u => u.name == email) with
  | none => none
  | some u => some
      { email := if u.email != "" then u.email else email
        name := if u.full_name != "" then u.full_name else u.name
        id := u.name
        profile_pic := if u.user_image != "" then some u.user_image else none }

/-- `_get_assigned_users`: open `ToDo` allocatees (de-duplicated — the
Python `set` is modelled as first-occurrence de-duplication), falling back
to the document's own `assigned_to` field; each email then resolved to user
details, skipping unknown users.  A missing document raises, which the
caller catches to an empty list; `none` models that branch. -/
def _get_assigned_users (db : TaskDB) (doctype docname : String) :
    Option (List AssignedUser) :=
  let allocs := (db.todos.filter (fun td =>
      td.reference_type == doctype && td.reference_name == docname
        && td.status == "Open")).map (fun td => td.allocated_to)
  let emails := (allocs.filter (fun a => a != "")).eraseDups
  if emails.isEmpty then
    match db.tasks.find? (fun t => t.name == docname) with
    | none => none
    | some t =>
        let emails := if t.assigned_to != "" then [t.assigned_to] else []
        some (emails.filterMap (resolveAssignee db.users))
  else
    some (emails.filterMap (resolveAssignee db.users))

/-- The compact task projection (`due_date` kept only when present, matching
the conditional insertion in the source). -/
structure CompactTask where
  name : String
  title : String
  status : String
  priority : String
  start_date : Int
  modified : Int
  due_date : Option Int
  assigned_to : List AssignedUser
  deriving DecidableEq

/-- `get_compact_task`: title falls back to the first 50 characters of the
description; assignees from `_get_assigned_users`, else the single
`assigned_to` field, else empty (errors degrade to empty). -/
def get_compact_task (db : TaskDB) (task : TaskDoc) : CompactTask :=
  let title := if task.title != "" then task.title
               else if task.description != "" then strTake task.description 50
               else ""
  let assigned :=
    match _get_assigned_users db "CRM Task" task.name with
    | none => []
    | some l =>
        if !l.isEmpty then l
        else if task.assigned_to != "" then
          match resolveAssignee db.users task.assigned_to with
          | some a => [a]
          | none => []
        else []
  { name := task.name, title := title, status := task.status
    priority := task.priority, start_date := task.start_date
    modified := task.modified, due_date := task.due_date
    assigned_to := assigned }

/-- `create_task`: requires a task type; status, priority and start date
default to `"Todo"`, `"Medium"` and today when falsy; the document is
inserted and returned through `get_compact_task`.  String parameters are
`Option String` (`none` = omitted); a supplied empty string is falsy in the
source and also triggers the default. -/
def create_task (db : TaskDB) (title status priority : Option String)
    (start_date : Option Int) (task_type description assigned_to : Option String)
    (due_date : Option Int) : Except String (TaskDB × CompactTask) :=
  if (task_type.getD "") == "" then Except.error "Task Type is required"
  else
    let status := if (status.getD "") == "" then "Todo" else status.getD ""
    let priority := if (priority.getD "") == "" then "Medium" else priority.getD ""
    let start_date := start_date.getD db.today
    let task : TaskDoc :=
      { name := db.nextName
        title := title.getD ""
        status := status
        priority := priority
        start_date := start_date
        due_date := due_date
        task_type := task_type.getD ""
        description := description.getD ""
        assigned_to := assigned_to.getD ""
        modified := 0 }
    let db2 : TaskDB := { db with tasks := db.tasks ++ [task] }
    Except.ok (db2, get_compact_task db2 task)

/-- `cint(x) or d`: zero (the `cint` of anything falsy or unparsable) falls
back to the default. -/
def cintOr (x d : Int) : Int := if x == 0 then d else x

/-- The normalized page size of `filter_tasks`. -/
def normLimit (limit : Int) : Int := cintOr limit 20

/-- The normalized (1-based) page number of `filter_tasks`. -/
def normPage (page : Int) : Int :=
  let p := cintOr page 1
  if p < 1 then 1 else p

/-- Comma-separated value parsing of the `importance` / `status`
parameters. -/
def parseCsv (s : Option String) : List String :=
  match s with
  | none => []
  | some str => ((splitComma str).map strTrim).filter (fun p => p != "")

/-- The filter conditions built by `filter_tasks` (an empty parsed list adds
no condition). -/
structure TaskFilters where
  dateFrom : Option Int
  dateTo : Option Int
  priorities : List String
  statuses : List String
  deriving DecidableEq

/-- Assembly of the filter list from the raw parameters. -/
def buildFilters (date_from date_to : Option Int) (importance status : Option String) :
    TaskFilters :=
  { dateFrom := date_from, dateTo := date_to
    priorities := parseCsv importance, statuses := parseCsv status }

/-- Conjunction of the built filter conditions on one task row. -/
def matchesFilters (f : TaskFilters) (t : TaskDoc) : Bool :=
  (match f.dateFrom with | none => true | some d => d ≤ t.start_date)
    && (match f.dateTo with | none => true | some d => t.start_date ≤ d)
    && (f.priorities.isEmpty || f.priorities.contains t.priority)
    && (f.statuses.isEmpty || f.statuses.contains t.status)

/-- The separate `frappe.db.count` query with the same filters. -/
def countTasks (db : TaskDB) (f : TaskFilters) : Nat :=
  (db.tasks.filter (matchesFilters f)).length

/-- The default `order_by="modified desc"` of `filter_tasks`. -/
def modifiedDescRel : TaskDoc → TaskDoc → Prop :=
  fun a b => b.modified ≤ a.modified

instance : DecidableRel modifiedDescRel :=
  fun _ _ => Int.decLe _ _

/-- The response envelope of `filter_tasks`. -/
structure FilterTasksResult where
  data : List CompactTask
  page : Int
  page_size : Int
  total : Nat
  has_next : Bool
  deriving DecidableEq

/-- `filter_tasks`: offset `(page-1)*limit`, page of `limit` rows, total by a
separate count with identical filters, `has_next = offset + len(data) <
total`.  (`Int.toNat` clamps a negative offset/limit to zero; the claim's
store hypothesis is vacuous there.) -/
def filter_tasks (db : TaskDB) (date_from date_to : Option Int)
    (importance status : Option String) (limit page : Int) : FilterTasksResult :=
  let L := normLimit limit
  let P := normPage page
  let start := (P - 1) * L
  let f := buildFilters date_from date_to importance status
  let rows := (((db.tasks.filter (matchesFilters f)).insertionSort
      modifiedDescRel).drop start.toNat).take L.toNat
  let data := rows.map (get_compact_task db)
  let total := countTasks db f
  { data := data, page := P, page_size := L, total := total
    has_next := decide ((start + (data.length : Int)) < (total : Int)) }

/-! ## Concrete states used by counterexamples and witnesses -/

/-- A log row with given ownership fields and seen value (other fields
empty). -/
def mkNRow (forU ownerU fromU : String) (seenV : Nat) (c : Option Int) : NRow :=
  { name := "n", subject := "", email_content := "", creation := c
    type := "", document_type := "", document_name := ""
    for_user := forU, owner := ownerU, from_user := fromU
    seen := seenV, read := 0 }

/-- State refuting C3 as stated: one unseen log row that reaches the user
bob only through the `from_user` column. -/
def dbC3x : NotifDB :=
  { schema := { hasSeen := true, hasRead := false, hasFromUser := true }
    nlog := [mkNRow "alice" "alice" "bob" 0 (some 1)]
    crmTableExists := true, crm := [], users := []
    sessionUser := "bob", now := 0, stripHtml := fun s => s }

/-- Small state for the C3 witness. -/
def dbC3w : NotifDB :=
  { schema := { hasSeen := true, hasRead := false, hasFromUser := false }
    nlog := [mkNRow "bob" "carl" "" 0 (some 5), mkNRow "bob" "carl" "" 1 (some 4)]
    crmTableExists := true
    crm := [{ name := "c1", creation := some 3, from_user := "carl", type := ""
              to_user := "bob", read := false, message := ""
              notification_text := "", notification_type_doctype := ""
              notification_type_doc := "", reference_doctype := ""
              reference_name := "" }]
    users := [], sessionUser := "bob", now := 0, stripHtml := fun s => s }

/-- State for the C4 counterexample and witness (one log row, one legacy
row). -/
def dbC4 : NotifDB :=
  { schema := { hasSeen := true, hasRead := false, hasFromUser := false }
    nlog := [mkNRow "bob" "bob" "" 0 (some 9)]
    crmTableExists := true
    crm := [{ name := "c1", creation := some 3, from_user := "carl", type := ""
              to_user := "bob", read := false, message := ""
              notification_text := "", notification_type_doctype := ""
              notification_type_doc := "", reference_doctype := ""
              reference_name := "" }]
    users := [], sessionUser := "bob", now := 0, stripHtml := fun s => s }

/-- State refuting C1 as stated: no `domains`/`host_name` configured, yet a
host equal to the site name is granted the configuration. -/
def stC1x : OAuthState :=
  { request := some { xForwardedHost := none, hostHeader := some "mysite.local" }
    site := some "mysite.local"
    config := some { domains := DomainsVal.dnone, host_name := none }
    ensureResult := Except.ok { client_id := "cid123", scope := "", redirect_uri := "" } }

/-- State refuting C2 as stated: the manager's roster contains the whole
request list, but the actor lacks read permission on the document. -/
def db2x : PermDB :=
  { roles := [("mgr", "Sales Manager")]
    teams := [{ name := "T1", team_leader := "mgr" }]
    members := [{ parent := "T1", parenttype := "Team", user := "a" }]
    todos := [], users := []
    readPerm := fun _ _ _ => false }

/-- State for the C2 witness (same as `db2x` but with read permission). -/
def db2w : PermDB :=
  { roles := [("mgr", "Sales Manager")]
    teams := [{ name := "T1", team_leader := "mgr" }]
    members := [{ parent := "T1", parenttype := "Team", user := "a" }]
    todos := [], users := []
    readPerm := fun _ _ _ => true }

/-- State refuting C6 as stated: the user `Guest` holds an open assignment
on lead `L1` yet the emitted list filter excludes every row. -/
def db6x : PermDB :=
  { roles := [], teams := [], members := []
    todos := [{ reference_type := "CRM Lead", reference_name := "L1"
                allocated_to := "Guest", status := "Open" }]
    users := [], readPerm := fun _ _ _ => true }

/-- State for the C6 witness: a normal sales user with one open assignment,
and a team they lead. -/
def db6w : PermDB :=
  { roles := [("u1", "Sales User")]
    teams := [{ name := "T1", team_leader := "u1" }]
    members := [{ parent := "T1", parenttype := "Team", user := "m1" }]
    todos := [{ reference_type := "CRM Lead", reference_name := "L1"
                allocated_to := "u1", status := "Open" }]
    users := [], readPerm := fun _ _ _ => true }

/-- State for the C7 witness: one privileged caller and one enabled user. -/
def db7w : PermDB :=
  { roles := [("boss", "System Manager")]
    teams := [], members := []
    todos := []
    users := [{ name := "a", email := "a@x.com", full_name := "A"
                user_image := "", enabled := true }]
    readPerm := fun _ _ _ => true }

/-- State for the C5 witness: three matching tasks. -/
def db5w : TaskDB :=
  { tasks :=
      [{ name := "t1", title := "", status := "Todo", priority := "Medium"
         start_date := 1, due_date := none, task_type := "Call"
         description := "", assigned_to := "", modified := 3 },
       { name := "t2", title := "", status := "Todo", priority := "Medium"
         start_date := 2, due_date := none, task_type := "Call"
         description := "", assigned_to := "", modified := 2 },
       { name := "t3", title := "", status := "Todo", priority := "Medium"
         start_date := 3, due_date := none, task_type := "Call"
         description := "", assigned_to := "", modified := 1 }]
    todos := [], users := [], today := 0, nextName := "t9" }

/-- State for the C9 counterexample and witness. -/
def db9 : TaskDB :=
  { tasks := [], todos := [], users := [], today := 7, nextName := "t1" }

/-- A non-reminder log row for the C8 witness. -/
def rowC8 : NRow :=
  { name := "n8", subject := "weekly digest", email_content := ""
    creation := some 1, type := "Energy Point", document_type := ""
    document_name := "", for_user := "bob", owner := "bob", from_user := ""
    seen := 0, read := 0 }

/-- Empty notification state for the C8 witness. -/
def dbC8w : NotifDB :=
  { schema := { hasSeen := true, hasRead := false, hasFromUser := false }
    nlog := [rowC8], crmTableExists := false, crm := [], users := []
    sessionUser := "bob", now := 0, stripHtml := fun s => s }

/-- State for the C1 witness: an explicitly configured domain matching the
request host. -/
def stC1w : OAuthState :=
  { request := some { xForwardedHost := none, hostHeader := some "app.example.com" }
    site := some "crm-site"
    config := some { domains := DomainsVal.dlist ["app.example.com"], host_name := none }
    ensureResult := Except.ok { client_id := "cid9", scope := "all openid"
                                redirect_uri := "app.trust://oauth2redirect" } }

/-! ## Theorems -/

/-- Claim C10: for every backing-store state (hence every session user),
`get_unread_count` returns exactly the value of `get_unseen_count`; the
former is a pure alias of the latter. -/
theorem c10_unread_is_unseen_alias (db : NotifDB) :
    get_unread_count db = get_unseen_count db := rfl

/-- Claim C8: the displayed type of a normalized notification-log row is
`"reminder"` exactly when the declared type (lowercased) is `"reminder"` or
`"alert"`, or the subject contains `"remind"` case-insensitively; and when
the override does not fire the displayed type is the stored one (with
`"system"` for an absent type) — the stored row itself is untouched (the
normalization is a pure projection). -/
theorem c8_reminder_override (db : NotifDB) (r : NRow) (seenCol : Option SeenCol) :
    ((_nlog_to_portal_dict db r seenCol).type = "reminder" ↔
      (strLower r.type = "reminder" ∨ strLower r.type = "alert"
        ∨ containsSub (strLower r.subject) "remind" = true))
    ∧ (_looks_like_reminder r = false →
        (_nlog_to_portal_dict db r seenCol).type
          = (if r.type = "" then "system" else r.type)) := by
  have hunf : _looks_like_reminder r = true ↔
      (strLower r.type = "reminder" ∨ strLower r.type = "alert"
        ∨ containsSub (strLower r.subject) "remind" = true) := by
    simp [_looks_like_reminder, Bool.or_eq_true, beq_iff_eq, or_assoc]
  constructor
  · cases h : _looks_like_reminder r with
    | true =>
        have hdisp : (_nlog_to_portal_dict db r seenCol).type = "reminder" := by
          simp [_nlog_to_portal_dict, h]
        rw [hdisp]
        simp only [true_iff]
        exact hunf.mp h
    | false =>
        have hnot : ¬ (strLower r.type = "reminder" ∨ strLower r.type = "alert"
            ∨ containsSub (strLower r.subject) "remind" = true) := by
          intro hc
          rw [← hunf] at hc
          simp [h] at hc
        have hdisp : (_nlog_to_portal_dict db r seenCol).type
            = (if r.type == "" then "system" else r.type) := by
          simp [_nlog_to_portal_dict, h]
        rw [hdisp]
        constructor
        · intro hval
          by_cases ht : r.type = ""
          · rw [if_pos (by simpa using ht)] at hval
            exact absurd hval (by decide)
          · rw [if_neg (by simpa using ht)] at hval
            refine absurd ?_ (fun hx => hnot (Or.inl hx))
            rw [hval]
            decide
        · intro hc
          exact absurd hc hnot
  · intro h
    by_cases ht : r.type = ""
    · simp [_nlog_to_portal_dict, h, ht]
    · simp [_nlog_to_portal_dict, h, ht]

/-- Witness for C8 at a concrete non-reminder row: the stored type is
displayed unchanged. -/
theorem c8_reminder_override_witness :
    (_nlog_to_portal_dict dbC8w rowC8 (some SeenCol.seen)).type
      = (if rowC8.type = "" then "system" else rowC8.type) :=
  (c8_reminder_override dbC8w rowC8 (some SeenCol.seen)).2 (by decide)

/-- Claim C7: `get_assignable_users` returns all enabled users to a
privileged caller (Administrator or System Manager); to a (non-privileged)
Sales Manager exactly the enabled users of their own team roster, an empty
roster giving an empty list rather than an error; and an empty list to every
other caller. -/
theorem c7_assignable_users (db : PermDB) (me : String) :
    (_is_privileged db me = true →
      get_assignable_users db me = (db.users.filter (fun u => u.enabled)).map toPublic)
    ∧ (_is_privileged db me = false → _is_sales_manager db me = true →
      get_assignable_users db me
        = (db.users.filter
            (fun u => u.enabled && (_team_members_of db me).contains u.name)).map toPublic)
    ∧ (_is_privileged db me = false → _is_sales_manager db me = true →
        _team_members_of db me = [] → get_assignable_users db me = [])
    ∧ (_is_privileged db me = false → _is_sales_manager db me = false →
      get_assignable_users db me = []) := by
  refine ⟨?_, ?_, ?_, ?_⟩
  · intro h
    simp [get_assignable_users, h]
  · intro h1 h2
    by_cases he : _team_members_of db me = []
    · have : (db.users.filter
          (fun u => u.enabled && (_team_members_of db me).contains u.name)) = [] := by
        rw [List.filter_eq_nil_iff]
        intro a _
        simp [he]
      simp [get_assignable_users, h1, h2, he, this]
    · simp [get_assignable_users, h1, h2, List.isEmpty_iff, he]
  · intro h1 h2 h3
    simp [get_assignable_users, h1, h2, h3]
  · intro h1 h2
    simp [get_assignable_users, h1, h2]

/-- Witness for C7 at a concrete state: a System Manager receives the
enabled user list. -/
theorem c7_assignable_users_witness :
    get_assignable_users db7w "boss"
      = (db7w.users.filter (fun u => u.enabled)).map toPublic :=
  (c7_assignable_users db7w "boss").1 rfl

/-- Claim C2 counterexample: a non-privileged Sales Manager whose roster
contains every listed user, yet `assign_lead` rejects the call (with a
permission error that does not name any user) because the caller lacks read
permission on the target document — refuting "if every listed user is in
the roster, the call succeeds". -/
theorem c2_counterexample :
    assign_lead db2x "mgr" "CRM Lead" "L1" ["a"]
        = Except.error AssignError.notPermittedRead
    ∧ (_team_members_of db2x "mgr").contains "a" = true
    ∧ _is_sales_manager db2x "mgr" = true
    ∧ _is_privileged db2x "mgr" = false := ⟨rfl, rfl, rfl, rfl⟩

/-- Claim C2 (amended with the read-permission precondition the source
checks first): provided the caller can read the target document, a
non-privileged Sales Manager is rejected with a permission error naming
exactly the out-of-roster users whenever any listed user is outside their
roster (and no assignment is created), succeeds with exactly one assignment
per listed (non-blank) user when all are in the roster, and a caller who is
neither privileged nor a Sales Manager is rejected outright. -/
theorem c2_assign_policy (db : PermDB) (actor doctype docname : String)
    (users : List String)
    (hread : db.readPerm actor doctype docname = true) :
    (_is_privileged db actor = false → _is_sales_manager db actor = true →
      (((users.filter (fun u => u != "")).filter
          (fun u => !((_team_members_of db actor).contains u)) ≠ [] →
        assign_lead db actor doctype docname users
          = Except.error (AssignError.teamOnly
              ((users.filter (fun u => u != "")).filter
                (fun u => !((_team_members_of db actor).contains u)))))
      ∧ ((users.filter (fun u => u != "")).filter
          (fun u => !((_team_members_of db actor).contains u)) = [] →
        assign_lead db actor doctype docname users
          = Except.ok (users.filter (fun u => u != "")))))
    ∧ (_is_privileged db actor = false → _is_sales_manager db actor = false →
        assign_lead db actor doctype docname users
          = Except.error AssignError.notAllowed) := by
  constructor
  · intro h1 h2
    constructor
    · intro hbad
      simp only [assign_lead, hread, Bool.not_true, Bool.false_eq_true, if_false,
        h1, h2, if_true]
      rw [if_pos (by simpa [bne_iff_ne] using hbad)]
    · intro hgood
      simp only [assign_lead, hread, Bool.not_true, Bool.false_eq_true, if_false,
        h1, h2, if_true]
      rw [if_neg (by simp only [bne_iff_ne, ne_eq, not_not]; exact hgood)]
  · intro h1 h2
    simp [assign_lead, hread, h1, h2]

/-- Witness for C2 at a concrete state: with read permission, a Sales
Manager assigning to an in-roster user succeeds with exactly that
assignment list. -/
theorem c2_assign_policy_witness :
    assign_lead db2w "mgr" "CRM Lead" "L1" ["a"] = Except.ok ["a"] := by
  have h := (c2_assign_policy db2w "mgr" "CRM Lead" "L1" ["a"] rfl).1 rfl rfl
  exact h.2 rfl

/-- Claim C6 counterexample: the user `Guest` is not a System Manager and
holds an open assignment on lead `L1`, yet the emitted list condition is the
always-false filter (`"1=0"`), so Guest does not "see exactly the rows where
they personally hold an open assignment" — the guest branch precedes the
assignment conditions. -/
theorem c6_counterexample :
    (get_permission_query_conditions db6x "Guest").map (fun p => p "L1") = some false
    ∧ openTodoFor db6x "CRM Lead" "L1" "Guest" = true
    ∧ (getRoles db6x "Guest").contains "System Manager" = false := ⟨rfl, rfl, rfl⟩

/-- An `if` returning Boolean constants collapses to its condition. -/
theorem bool_ite_collapse (c : Bool) : (if c = true then true else false) = c := by
  cases c <;> simp

/-- Claim C6 (amended to exclude the empty and `Guest` users, which see
nothing): a System Manager gets no list condition; every other user's list
condition holds on exactly the leads on which they hold an open assignment
or a member of a team they lead does; and the document-level check for such
users additionally accepts presence of the user (or a led-team member) in
the document's inline assignee list. -/
theorem c6_lead_visibility (db : PermDB) (user ptype : String) (doc : LeadDoc)
    (hu : user ≠ "" ∧ user ≠ "Guest") :
    ((getRoles db user).contains "System Manager" = true →
        get_permission_query_conditions db user = none)
    ∧ ((getRoles db user).contains "System Manager" = false →
        ∃ p, get_permission_query_conditions db user = some p
          ∧ ∀ leadName, p leadName = true ↔
              (openTodoFor db "CRM Lead" leadName user = true
                ∨ ∃ m ∈ db.members,
                    (∃ t ∈ db.teams, m.parent = t.name ∧ t.team_leader = user)
                    ∧ openTodoFor db "CRM Lead" leadName m.user = true))
    ∧ ((getRoles db user).contains "System Manager" = false →
        (has_permission db doc ptype user = true ↔
          (user ∈ doc.assignList
            ∨ openTodoFor db doc.doctype doc.name user = true
            ∨ ∃ m ∈ leaderMembers db user, m ≠ ""
                ∧ (m ∈ doc.assignList ∨ openTodoFor db doc.doctype doc.name m = true)))) := by
  have hg : (user == "" || user == "Guest") = false := by
    simp [hu.1, hu.2]
  refine ⟨?_, ?_, ?_⟩
  · intro h
    simp [get_permission_query_conditions, hg, List.elem_iff.mp h]
  · intro h
    have hn : "System Manager" ∉ getRoles db user := fun hx => by
      have hc : (getRoles db user).contains "System Manager" = true :=
        List.elem_iff.mpr hx
      rw [h] at hc
      exact Bool.false_ne_true hc
    refine ⟨leadQueryCond db user,
      by simp [get_permission_query_conditions, hg, hn], ?_⟩
    intro leadName
    simp [leadQueryCond, List.any_eq_true, Bool.and_eq_true, beq_iff_eq]
  · intro h
    have hn : "System Manager" ∉ getRoles db user := fun hx => by
      have hc : (getRoles db user).contains "System Manager" = true :=
        List.elem_iff.mpr hx
      rw [h] at hc
      exact Bool.false_ne_true hc
    simp only [has_permission, hg, Bool.false_eq_true, if_false, h, if_true]
    by_cases h1 : doc.assignList.contains user = true
    · simp only [h1, if_true, true_iff]
      exact Or.inl (List.elem_iff.mp h1)
    · rw [if_neg h1]
      have h1m : user ∉ doc.assignList := fun hmem =>
        h1 (List.elem_iff.mpr hmem)
      by_cases h2 : openTodoFor db doc.doctype doc.name user = true
      · simp [h2]
      · rw [if_neg h2]
        simp only [h1m, false_or, h2, Bool.false_eq_true]
        by_cases h3 : (leaderMembers db user).any
            (fun m => m != "" && doc.assignList.contains m) = true
        · simp only [h3, if_true, true_iff, false_or]
          obtain ⟨m, hm, hprop⟩ := List.any_eq_true.mp h3
          refine ⟨m, hm, ?_, ?_⟩
          · simpa [bne_iff_ne] using (Bool.and_eq_true_iff.mp hprop).1
          · exact Or.inl (List.elem_iff.mp (Bool.and_eq_true_iff.mp hprop).2)
        · rw [if_neg h3]
          rw [bool_ite_collapse]
          have h3n : ∀ m ∈ leaderMembers db user, m ≠ "" → m ∉ doc.assignList := by
            intro m hm hne hmem
            exact h3 (List.any_eq_true.mpr ⟨m, hm, Bool.and_eq_true_iff.mpr
              ⟨by simpa [bne_iff_ne] using hne, List.elem_iff.mpr hmem⟩⟩)
          constructor
          · intro hc
            have hparts := Bool.and_eq_true_iff.mp hc
            obtain ⟨td, htd, hprop⟩ := List.any_eq_true.mp hparts.2
            have hps := Bool.and_eq_true_iff.mp hprop
            have halloc : td.allocated_to ∈
                (leaderMembers db user).filter (fun m => m != "") :=
              List.elem_iff.mp hps.2
            have hmem := List.mem_filter.mp halloc
            refine ⟨td.allocated_to, hmem.1,
              by simpa [bne_iff_ne] using hmem.2, Or.inr ?_⟩
            refine List.any_eq_true.mpr ⟨td, htd, ?_⟩
            have hp1 := Bool.and_eq_true_iff.mp hps.1
            have hp2 := Bool.and_eq_true_iff.mp hp1.1
            simp only [Bool.and_eq_true, beq_iff_eq]
            refine ⟨⟨⟨?_, ?_⟩, trivial⟩, ?_⟩
            · exact beq_iff_eq.mp hp2.1
            · exact beq_iff_eq.mp hp2.2
            · exact beq_iff_eq.mp hp1.2
          · intro hr
            obtain ⟨m, hm, hne, hcase⟩ := hr
            rcases hcase with hassign | htodo
            · exact absurd hassign (h3n m hm hne)
            · obtain ⟨td, htd, hprop⟩ := List.any_eq_true.mp htodo
              have hps := Bool.and_eq_true_iff.mp hprop
              have hps2 := Bool.and_eq_true_iff.mp hps.1
              have hps3 := Bool.and_eq_true_iff.mp hps2.1
              have ha : td.allocated_to = m := beq_iff_eq.mp hps2.2
              have hmf : m ∈ (leaderMembers db user).filter (fun x => x != "") :=
                List.mem_filter.mpr ⟨hm, by simpa [bne_iff_ne] using hne⟩
              refine Bool.and_eq_true_iff.mpr ⟨Bool.and_eq_true_iff.mpr ⟨?_, ?_⟩, ?_⟩
              · simp only [Bool.not_eq_eq_eq_not, Bool.not_false]
                exact List.isEmpty_eq_false_iff_exists_mem.mpr ⟨m, hm⟩
              · simp only [Bool.not_eq_eq_eq_not, Bool.not_false]
                exact List.isEmpty_eq_false_iff_exists_mem.mpr ⟨m, hmf⟩
              · refine List.any_eq_true.mpr ⟨td, htd, ?_⟩
                refine Bool.and_eq_true_iff.mpr ⟨Bool.and_eq_true_iff.mpr
                  ⟨Bool.and_eq_true_iff.mpr ⟨hps3.1, hps3.2⟩, hps.2⟩, ?_⟩
                exact List.elem_iff.mpr (ha ▸ hmf)

/-- Witness for C6 at a concrete state: a Sales User with an open
assignment on lead `L1` passes the document-level check. -/
theorem c6_lead_visibility_witness :
    has_permission db6w { doctype := "CRM Lead", name := "L1", assignList := [] }
        "read" "u1" = true := by
  have h := (c6_lead_visibility db6w "u1" "read"
      { doctype := "CRM Lead", name := "L1", assignList := [] }
      ⟨by decide, by decide⟩).2.2 rfl
  exact h.mpr (Or.inr (Or.inl rfl))

/-- Claim C3 counterexample: user bob has zero unseen rows owned by or
addressed to bob (and zero legacy rows), yet `get_unseen_count` returns 1 —
the query also matches rows whose `from_user` is bob when that column
exists. -/
theorem c3_counterexample :
    _get_unseen_count_for dbC3x "bob" = 1
    ∧ (dbC3x.nlog.filter (fun r =>
        (r.for_user == "bob" || r.owner == "bob")
          && !(_bool_seen r (_seen_column_name dbC3x.schema)))).length = 0
    ∧ dbC3x.crm.length = 0 := ⟨rfl, rfl, rfl⟩

/-- Claim C3 (amended): when the user's matching row set — rows owned by,
addressed to, or (when the `from_user` column exists) sent by the user — has
at most 500 rows (the fetch cap) and the legacy table exists,
`get_unseen_count` returns N + M where N counts the matching rows whose
normalized read/seen flag is false and M the legacy rows with `to_user` the
user and `read = 0`. -/
theorem c3_unseen_count (db : NotifDB) (user : String)
    (hcap : (db.nlog.filter (nlogMatches db user)).length ≤ 500)
    (htab : db.crmTableExists = true) :
    _get_unseen_count_for db user =
      (db.nlog.filter (fun r => nlogMatches db user r
          && !(_bool_seen r (_seen_column_name db.schema)))).length
      + (db.crm.filter (fun c => c.to_user == user && !c.read)).length := by
  simp only [_get_unseen_count_for, nlogFetch, htab, if_true]
  have hlen : ((db.nlog.filter (nlogMatches db user)).insertionSort
      sqlNlogRel).length ≤ 500 := by
    rw [(List.perm_insertionSort sqlNlogRel _).length_eq]
    exact hcap
  rw [List.take_of_length_le hlen]
  have hperm := (List.perm_insertionSort sqlNlogRel
      (db.nlog.filter (nlogMatches db user))).filter
      (fun r => !(_bool_seen r (_seen_column_name db.schema)))
  rw [hperm.length_eq, List.filter_filter]
  congr 1
  apply congrArg List.length
  apply List.filter_congr
  intro a _
  exact Bool.and_comm _ _

/-- Witness for C3 at a concrete state: one unseen and one seen log row plus
one unread legacy row give 1 + 1. -/
theorem c3_unseen_count_witness :
    _get_unseen_count_for dbC3w "bob"
      = (dbC3w.nlog.filter (fun r => nlogMatches dbC3w "bob" r
          && !(_bool_seen r (_seen_column_name dbC3w.schema)))).length
      + (dbC3w.crm.filter (fun c => c.to_user == "bob" && !c.read)).length :=
  c3_unseen_count dbC3w "bob" (by decide) rfl

/-- A Python slice of a sorted list is sorted. -/
theorem pythonTake_sorted (now : Int) (k : Int) (l : List PortalDict)
    (h : l.Sorted (mergeRel now)) : (pythonTake k l).Sorted (mergeRel now) := by
  unfold pythonTake
  split
  · exact List.Pairwise.sublist (List.take_sublist _ _) h
  · exact List.Pairwise.sublist (List.take_sublist _ _) h

/-- A Python slice by a nonnegative bound has at most that many elements. -/
theorem pythonTake_length (k : Int) (hk : 0 ≤ k) (l : List PortalDict) :
    ((pythonTake k l).length : Int) ≤ k := by
  unfold pythonTake
  rw [if_pos hk]
  have h1 := List.length_take_le k.toNat l
  omega

/-- Claim C4 counterexample: with the requested limit -1 the returned array
is never of length at most the limit (a length is nonnegative; Python's
negative slice drops rows from the end instead). -/
theorem c4_counterexample :
    ¬ (((list_portal_notifications dbC4 (-1) 1).length : Int) ≤ -1) := by decide

/-- Claim C4 (amended to nonnegative limits; the legacy-table hypothesis
records that the source queries that table unconditionally on this path, so
the call only returns when it exists): the merged feed is sorted
non-increasing by creation time — rows lacking a creation timestamp sorting
as the current time — regardless of source mix, and when the requested limit
is nonnegative its length is at most the limit. -/
theorem c4_merged_feed (db : NotifDB) (limit il : Int)
    (htab : db.crmTableExists = true) :
    (list_portal_notifications db limit il).Sorted (mergeRel db.now)
    ∧ (0 ≤ limit →
        ((list_portal_notifications db limit il).length : Int) ≤ limit) := by
  constructor
  · exact pythonTake_sorted db.now limit _
      (List.sorted_insertionSort (mergeRel db.now) _)
  · intro hl
    exact pythonTake_length limit hl _

/-- Witness for C4 at a concrete state with both sources populated. -/
theorem c4_merged_feed_witness :
    (list_portal_notifications dbC4 1 1).Sorted (mergeRel dbC4.now)
    ∧ ((list_portal_notifications dbC4 1 1).length : Int) ≤ 1 :=
  ⟨(c4_merged_feed dbC4 1 1 rfl).1, (c4_merged_feed dbC4 1 1 rfl).2 (by decide)⟩

/-- Claim C5: under the claim's store hypothesis — the page query returns
`min(L, max(0, T - (P-1)*L))` rows at offset `(P-1)*L` — `has_next` is true
exactly when `P*L < T`, the reported page/page-size are the normalized `P`
and `L`, and `total` is the separate count with identical filters. -/
theorem c5_filter_tasks_pagination (db : TaskDB) (df dt : Option Int)
    (imp st : Option String) (limit page : Int)
    (hstore : ((filter_tasks db df dt imp st limit page).data.length : Int)
        = min (normLimit limit)
            (max 0 ((countTasks db (buildFilters df dt imp st) : Int)
              - (normPage page - 1) * normLimit limit))) :
    ((filter_tasks db df dt imp st limit page).has_next = true
      ↔ normPage page * normLimit limit
          < (countTasks db (buildFilters df dt imp st) : Int))
    ∧ (filter_tasks db df dt imp st limit page).total
        = countTasks db (buildFilters df dt imp st)
    ∧ (filter_tasks db df dt imp st limit page).page = normPage page
    ∧ (filter_tasks db df dt imp st limit page).page_size = normLimit limit := by
  refine ⟨?_, rfl, rfl, rfl⟩
  have hhn : (filter_tasks db df dt imp st limit page).has_next
      = decide (((normPage page - 1) * normLimit limit
          + ((filter_tasks db df dt imp st limit page).data.length : Int))
        < (countTasks db (buildFilters df dt imp st) : Int)) := rfl
  rw [hhn, decide_eq_true_iff, hstore]
  have key : ∀ s L T : Int, s + min L (max 0 (T - s)) < T ↔ s + L < T := by
    intro s L T
    omega
  rw [key ((normPage page - 1) * normLimit limit) (normLimit limit)
      (countTasks db (buildFilters df dt imp st))]
  have hPL : normPage page * normLimit limit
      = (normPage page - 1) * normLimit limit + normLimit limit := by ring
  rw [hPL]

/-- Witness for C5 at a concrete state: three matching tasks, page 1 of
size 2, so a next page exists. -/
theorem c5_filter_tasks_pagination_witness :
    (filter_tasks db5w none none none none 2 1).has_next = true :=
  ((c5_filter_tasks_pagination db5w none none none none 2 1 (by decide)).1).mpr
    (by decide)

/-- The compact projection passes the stored status through. -/
theorem get_compact_task_status (db : TaskDB) (t : TaskDoc) :
    (get_compact_task db t).status = t.status := rfl

/-- The compact projection passes the stored priority through. -/
theorem get_compact_task_priority (db : TaskDB) (t : TaskDoc) :
    (get_compact_task db t).priority = t.priority := rfl

/-- Claim C9 counterexample: status supplied as the empty string (falsy in
the source) together with priority "High"; the returned task carries status
"Todo", not the supplied value. -/
theorem c9_counterexample :
    (create_task db9 none (some "") (some "High") none (some "Call")
        none none none).map (fun r => (r.2.status, r.2.priority))
      = Except.ok ("Todo", "High") := rfl

/-- Claim C9 (amended: an empty-string value is falsy in the source and is
treated as omitted): every valid creation (non-empty task type) succeeds and
returns status "Todo" when status is omitted or empty and priority "Medium"
when priority is omitted or empty, and returns the supplied values when
non-empty values are supplied. -/
theorem c9_create_task_defaults (db : TaskDB)
    (title status priority : Option String) (sd : Option Int)
    (tt descr asgn : Option String) (dd : Option Int)
    (htt : (tt.getD "") ≠ "") :
    ∃ db2 ct, create_task db title status priority sd tt descr asgn dd
        = Except.ok (db2, ct)
      ∧ ((status = none ∨ status = some "") → ct.status = "Todo")
      ∧ (∀ s, status = some s → s ≠ "" → ct.status = s)
      ∧ ((priority = none ∨ priority = some "") → ct.priority = "Medium")
      ∧ (∀ p, priority = some p → p ≠ "" → ct.priority = p) := by
  unfold create_task
  rw [if_neg (by simpa using htt)]
  refine ⟨_, _, rfl, ?_, ?_, ?_, ?_⟩
  · intro h
    rw [get_compact_task_status]
    rcases h with h | h <;> subst h <;> rfl
  · intro s hs hne
    subst hs
    rw [get_compact_task_status]
    show (if (s == "") = true then "Todo" else s) = s
    rw [if_neg (by simpa using hne)]
  · intro h
    rw [get_compact_task_priority]
    rcases h with h | h <;> subst h <;> rfl
  · intro p hp hne
    subst hp
    rw [get_compact_task_priority]
    show (if (p == "") = true then "Medium" else p) = p
    rw [if_neg (by simpa using hne)]

/-- Witness for C9 at a concrete state: both values supplied non-empty are
returned unchanged. -/
theorem c9_create_task_defaults_witness :
    ∃ db2 ct, create_task db9 (some "T") (some "Done") (some "High") none
        (some "Call") none none none = Except.ok (db2, ct)
      ∧ ct.status = "Done" ∧ ct.priority = "High" := by
  obtain ⟨db2, ct, heq, _, hs, _, hp⟩ := c9_create_task_defaults db9 (some "T")
    (some "Done") (some "High") none (some "Call") none none none (by decide)
  exact ⟨db2, ct, heq, hs "Done" rfl (by decide), hp "High" rfl (by decide)⟩

/-- Claim C1 counterexample: no `domains`/`host_name` entry is configured
for the site, so no explicitly configured domain exists, yet a request whose
host equals the site name is granted the OAuth configuration (the source's
no-domains fallback) — refuting "the bare site name is not trusted unless
explicitly configured". -/
theorem c1_counterexample :
    get_oauth_config stC1x
      = Except.ok { client_id := "cid123", scope := "all openid"
                    redirect_uri := "app.trust://oauth2redirect" }
    ∧ stC1x.config.map parseDomains = some [] := ⟨rfl, rfl⟩

/-- `_validate_host` succeeds exactly on the hosts described by
`hostPermittedSpec`: a resolvable host and site, with the normalized host
among the configured domains, or — when none are configured or the config
cannot be read — equal to the lowercased site name. -/
theorem validate_host_iff (st : OAuthState) :
    (_validate_host st = Except.ok ()) ↔ hostPermittedSpec st = true := by
  cases hreq : st.request with
  | none => simp [_validate_host, hostPermittedSpec, resolvedHost, hreq]
  | some req =>
    cases hraw : extractRawHost req with
    | none => simp [_validate_host, hostPermittedSpec, resolvedHost, hreq, hraw]
    | some raw =>
      cases hsite : st.site with
      | none => simp [_validate_host, hostPermittedSpec, resolvedHost, hreq, hraw, hsite]
      | some site =>
        by_cases hse : (site == "") = true
        · simp [_validate_host, hostPermittedSpec, resolvedHost, hreq, hraw, hsite, hse]
        · cases hcfg : st.config with
          | none =>
            by_cases hh : (normalizeHost raw == strTrim (strLower site)) = true
            · have hh2 : normalizeHost raw = strTrim (strLower site) := by
                simpa using hh
              simp [_validate_host, hostPermittedSpec, resolvedHost, hreq, hraw,
                hsite, hse, hcfg, hh, hh2, List.contains_eq_any_beq, List.any_cons,
                List.any_nil]
            · simp [_validate_host, hostPermittedSpec, resolvedHost, hreq, hraw,
                hsite, hse, hcfg, hh]
          | some cfg =>
            by_cases hne : (parseDomains cfg != []) = true
            · have hdne : ¬ parseDomains cfg = [] := by
                simpa [bne_iff_ne] using hne
              by_cases hc : (parseDomains cfg).contains (normalizeHost raw) = true
              · have hcm : normalizeHost raw ∈ parseDomains cfg :=
                  List.elem_iff.mp hc
                simp [_validate_host, hostPermittedSpec, resolvedHost, hreq, hraw,
                  hsite, hse, hcfg, hne, hc, hcm]
              · have hcm : normalizeHost raw ∉ parseDomains cfg := fun hm =>
                  hc (List.elem_iff.mpr hm)
                simp [_validate_host, hostPermittedSpec, resolvedHost, hreq, hraw,
                  hsite, hse, hcfg, hne, hc, hdne, hcm]
            · have hd : parseDomains cfg = [] := by
                simpa [bne_iff_ne] using hne
              by_cases hh : (normalizeHost raw == strTrim (strLower site)) = true
              · have hh2 : normalizeHost raw = strTrim (strLower site) := by
                  simpa using hh
                simp [_validate_host, hostPermittedSpec, resolvedHost, hreq, hraw,
                  hsite, hse, hcfg, hne, hd, hh, hh2, List.contains_eq_any_beq,
                  List.any_cons, List.any_nil]
              · simp [_validate_host, hostPermittedSpec, resolvedHost, hreq, hraw,
                  hsite, hse, hcfg, hne, hd, hh]

/-- Claim C1 (amended): `get_oauth_config` returns a configuration exactly
when the normalized request host is among the explicitly configured domains
OR — the source's fallback, which the original claim excludes — no domains
are configured (or the site config cannot be read) and the host equals the
lowercased site name; and additionally the ensured settings carry a
non-empty `client_id`.  In every other situation the call is denied with an
error and no `client_id` is returned. -/
theorem c1_oauth_config_gate (st : OAuthState) :
    (∃ c, get_oauth_config st = Except.ok c)
      ↔ (hostPermittedSpec st = true
          ∧ ∃ ms, st.ensureResult = Except.ok ms ∧ ms.client_id ≠ "") := by
  constructor
  · rintro ⟨c, hc⟩
    cases hv : _validate_host st with
    | error e =>
      unfold get_oauth_config at hc
      rw [hv] at hc
      cases hc
    | ok u =>
      cases u
      cases hens : st.ensureResult with
      | error e =>
        unfold get_oauth_config at hc
        rw [hv, hens] at hc
        cases hc
      | ok ms =>
        by_cases hcid : (ms.client_id == "") = true
        · unfold get_oauth_config at hc
          rw [hv, hens] at hc
          have hc2 : (if (ms.client_id == "") = true
              then (Except.error VErr.incompleteSettings : Except VErr OAuthConfigOut)
              else Except.ok
                { client_id := ms.client_id
                  scope := if ms.scope == "" then "all openid" else ms.scope
                  redirect_uri := if ms.redirect_uri == ""
                                  then "app.trust://oauth2redirect"
                                  else ms.redirect_uri }) = Except.ok c := hc
          rw [if_pos hcid] at hc2
          cases hc2
        · exact ⟨(validate_host_iff st).mp hv, ms, rfl, by simpa using hcid⟩
  · rintro ⟨hperm, ms, hens, hcid⟩
    have hv := (validate_host_iff st).mpr hperm
    have hcid2 : ¬ (ms.client_id == "") = true := by simpa using hcid
    refine ⟨{ client_id := ms.client_id
              scope := if ms.scope == "" then "all openid" else ms.scope
              redirect_uri := if ms.redirect_uri == "" then "app.trust://oauth2redirect"
                              else ms.redirect_uri }, ?_⟩
    unfold get_oauth_config
    rw [hv, hens]
    show (if (ms.client_id == "") = true
        then (Except.error VErr.incompleteSettings : Except VErr OAuthConfigOut)
        else Except.ok
          { client_id := ms.client_id
            scope := if ms.scope == "" then "all openid" else ms.scope
            redirect_uri := if ms.redirect_uri == ""
                            then "app.trust://oauth2redirect"
                            else ms.redirect_uri })
      = Except.ok
          { client_id := ms.client_id
            scope := if ms.scope == "" then "all openid" else ms.scope
            redirect_uri := if ms.redirect_uri == ""
                            then "app.trust://oauth2redirect"
                            else ms.redirect_uri }
    rw [if_neg hcid2]

/-- Witness for C1 at a concrete state: a host among the explicitly
configured domains receives the configuration. -/
theorem c1_oauth_config_gate_witness :
    ∃ c, get_oauth_config stC1w = Except.ok c :=
  (c1_oauth_config_gate stC1w).mpr
    ⟨by decide, { client_id := "cid9", scope := "all openid"
                  redirect_uri := "app.trust://oauth2redirect" }, rfl, by decide⟩

end Crm
